import Mathlib

/-!
Verification of the multi-provider AI client abstraction of the book
digitization pipeline (directory src/providers of the repository).
The Python modules base.py, factory.py and the five vendor provider
modules are shallowly embedded below: dataclass records become
structures, the retry loop becomes a fuel-indexed recursion, request
dictionaries become request structures, and the base64 payload
encoding is modelled by an executable encoder and decoder.
-/

/-- Alphabet used by base64.standard_b64encode (RFC 4648 standard alphabet),
as called in openai_provider.py line 74, anthropic_provider.py line 73,
qwen_provider.py line 78 and ollama_provider.py line 117. -/
def b64Alphabet : String :=
  "ABCDEFGHIJKLMNOPQRSTUVWXYZabcdefghijklmnopqrstuvwxyz0123456789+/"

/-- Character for a 6-bit group, from the standard base64 alphabet. -/
def b64EncChar (n : Nat) : Char :=
  b64Alphabet.toList.getD n '?'

/-- Position of a character in a character list (first occurrence). -/
def b64IndexAux : List Char → Char → Nat
  | [], _ => 0
  | a :: rest, c => if a = c then 0 else 1 + b64IndexAux rest c

/-- 6-bit value of a base64 alphabet character. -/
def b64DecChar (c : Char) : Nat :=
  b64IndexAux b64Alphabet.toList c

/-- base64.standard_b64encode on a byte sequence (each byte below 256),
producing the padded character sequence. -/
def b64encode : List Nat → List Char
  | [] => []
  | [a] => [b64EncChar (a / 4), b64EncChar (a % 4 * 16), '=', '=']
  | [a, b] => [b64EncChar (a / 4), b64EncChar (a % 4 * 16 + b / 16),
      b64EncChar (b % 16 * 4), '=']
  | a :: b :: c :: rest =>
      b64EncChar (a / 4) :: b64EncChar (a % 4 * 16 + b / 16) ::
      b64EncChar (b % 16 * 4 + c / 64) :: b64EncChar (c % 64) :: b64encode rest

/-- base64.standard_b64decode on a padded base64 character sequence. -/
def b64decode : List Char → List Nat
  | w :: x :: y :: z :: rest =>
      if y = '=' then
        [b64DecChar w * 4 + b64DecChar x / 16]
      else if z = '=' then
        [b64DecChar w * 4 + b64DecChar x / 16,
         b64DecChar x % 16 * 16 + b64DecChar y / 4]
      else
        (b64DecChar w * 4 + b64DecChar x / 16) ::
        (b64DecChar x % 16 * 16 + b64DecChar y / 4) ::
        (b64DecChar y % 4 * 64 + b64DecChar z) :: b64decode rest
  | _ => []

theorem b64DecChar_encChar_fin : ∀ i : Fin 64, b64DecChar (b64EncChar i.val) = i.val := by
  decide

theorem b64EncChar_ne_pad_fin : ∀ i : Fin 64, b64EncChar i.val ≠ '=' := by
  decide

theorem b64DecChar_encChar (n : Nat) (h : n < 64) : b64DecChar (b64EncChar n) = n :=
  b64DecChar_encChar_fin ⟨n, h⟩

theorem b64EncChar_ne_pad (n : Nat) (h : n < 64) : b64EncChar n ≠ '=' :=
  b64EncChar_ne_pad_fin ⟨n, h⟩

theorem b64_roundtrip_aux :
    ∀ (n : Nat) (l : List Nat), l.length ≤ n → (∀ x ∈ l, x < 256) →
      b64decode (b64encode l) = l := by
  intro n
  induction n with
  | zero =>
    intro l hl _
    cases l with
    | nil => rfl
    | cons a t => simp at hl
  | succ n ih =>
    intro l hl hb
    match l with
    | [] => rfl
    | [a] =>
      have ha : a < 256 := hb a (by simp)
      have h1 : a / 4 < 64 := by omega
      have h2 : a % 4 * 16 < 64 := by omega
      simp only [b64encode, b64decode, if_pos rfl, if_true,
        b64DecChar_encChar _ h1, b64DecChar_encChar _ h2]
      have : a / 4 * 4 + a % 4 * 16 / 16 = a := by omega
      rw [this]
    | [a, b] =>
      have ha : a < 256 := hb a (by simp)
      have hbb : b < 256 := hb b (by simp)
      have h1 : a / 4 < 64 := by omega
      have h2 : a % 4 * 16 + b / 16 < 64 := by omega
      have h3 : b % 16 * 4 < 64 := by omega
      simp only [b64encode, b64decode, if_neg (b64EncChar_ne_pad _ h3), if_pos rfl,
        if_true, b64DecChar_encChar _ h1, b64DecChar_encChar _ h2, b64DecChar_encChar _ h3]
      have e1 : a / 4 * 4 + (a % 4 * 16 + b / 16) / 16 = a := by omega
      have e2 : (a % 4 * 16 + b / 16) % 16 * 16 + b % 16 * 4 / 4 = b := by omega
      rw [e1, e2]
    | a :: b :: c :: rest =>
      have ha : a < 256 := hb a (by simp)
      have hbb : b < 256 := hb b (by simp)
      have hc : c < 256 := hb c (by simp)
      have h1 : a / 4 < 64 := by omega
      have h2 : a % 4 * 16 + b / 16 < 64 := by omega
      have h3 : b % 16 * 4 + c / 64 < 64 := by omega
      have h4 : c % 64 < 64 := by omega
      have hlen : rest.length ≤ n := by
        simp only [List.length_cons] at hl
        omega
      have hrest : ∀ x ∈ rest, x < 256 := fun x hx => hb x (by simp [hx])
      simp only [b64encode, b64decode, if_neg (b64EncChar_ne_pad _ h3),
        if_neg (b64EncChar_ne_pad _ h4),
        b64DecChar_encChar _ h1, b64DecChar_encChar _ h2,
        b64DecChar_encChar _ h3, b64DecChar_encChar _ h4,
        ih rest hlen hrest]
      have e1 : a / 4 * 4 + (a % 4 * 16 + b / 16) / 16 = a := by omega
      have e2 : (a % 4 * 16 + b / 16) % 16 * 16 + (b % 16 * 4 + c / 64) / 4 = b := by omega
      have e3 : (b % 16 * 4 + c / 64) % 4 * 64 + c % 64 = c := by omega
      rw [e1, e2, e3]

/-- Round trip of the standard base64 encoding on byte sequences. -/
theorem b64_roundtrip (l : List Nat) (h : ∀ x ∈ l, x < 256) :
    b64decode (b64encode l) = l :=
  b64_roundtrip_aux l.length l (le_refl _) h

/-- Configuration record for an AI provider, from the dataclass
ProviderConfig in base.py lines 15 to 27. Python floats are modelled
as rationals and Python ints as integers; the open mapping field
extra is modelled as an association list. -/
structure ProviderConfig where
  apiKey : String
  apiBase : String
  visionModel : String
  languageModel : String
  maxTokens : Int
  temperature : ℚ
  topP : ℚ
  maxRetries : Int
  retryDelay : ℚ
  extra : List (String × String)
deriving DecidableEq

/-- Normalization performed by ProviderConfig.__post_init__ in base.py
lines 29 to 36: out-of-range max_tokens, temperature and top_p are
silently reset to their defaults. The source mutates the three fields
one after the other; the checks and writes act on pairwise disjoint
fields, so the sequential mutation equals this simultaneous update. -/
def ProviderConfig.postInit (c : ProviderConfig) : ProviderConfig :=
  { c with
    maxTokens := if c.maxTokens < 1 then 4096 else c.maxTokens
    temperature := if ¬(0 ≤ c.temperature ∧ c.temperature ≤ 2) then 0.7
      else c.temperature
    topP := if ¬(0 ≤ c.topP ∧ c.topP ≤ 1) then 0.9 else c.topP }

/-- Construction of a ProviderConfig: the dataclass generated __init__
followed by __post_init__. -/
def mkProviderConfig (apiKey apiBase visionModel languageModel : String)
    (maxTokens : Int) (temperature topP : ℚ) (maxRetries : Int)
    (retryDelay : ℚ) (extra : List (String × String)) : ProviderConfig :=
  ProviderConfig.postInit
    ⟨apiKey, apiBase, visionModel, languageModel, maxTokens, temperature,
      topP, maxRetries, retryDelay, extra⟩

/-- Aggregating error raised by AIProvider._retry_with_backoff after all
retries fail (base.py lines 130 to 133): a RuntimeError whose message
names the provider, the retry count and the last underlying exception.
The spec calls this error ProviderCallError. -/
structure ProviderCallError (E : Type) where
  providerName : String
  maxRetries : Int
  lastException : Option E
deriving DecidableEq

deriving instance DecidableEq for Except

/-- Observable outcome of one run of _retry_with_backoff: the returned
value or raised error, the number of invocations of the wrapped
function, and the sequence of sleep durations in seconds. -/
structure RetryOutcome (E A : Type) where
  result : Except (ProviderCallError E) A
  invocations : Nat
  sleeps : List ℚ
deriving DecidableEq

/-- The retry loop of AIProvider._retry_with_backoff, base.py lines 117
to 133, as a recursion on the remaining number of loop iterations.
The wrapped call is modelled as a function from the attempt index to
either a value or a raised exception. The state is the fuel (loop
iterations left), the current attempt index and the value of the local
variable last_exception. When the fuel hits zero the final RuntimeError
is raised carrying last_exception; on a failure with further attempts
left, the loop sleeps retry_delay times 2 to the attempt and retries;
on a failure at the last attempt it falls out of the loop and raises
without sleeping. -/
def retryAux {E A : Type} (providerName : String) (maxRetries : Int)
    (retryDelay : ℚ) (func : Nat → Except E A) :
    Nat → Nat → Option E → RetryOutcome E A
  | 0, attempt, lastExc =>
      ⟨Except.error ⟨providerName, maxRetries, lastExc⟩, attempt, []⟩
  | fuel + 1, attempt, _ =>
      match func attempt with
      | Except.ok v => ⟨Except.ok v, attempt + 1, []⟩
      | Except.error e =>
          if fuel = 0 then
            ⟨Except.error ⟨providerName, maxRetries, some e⟩, attempt + 1, []⟩
          else
            let rest := retryAux providerName maxRetries retryDelay func fuel
              (attempt + 1) (some e)
            ⟨rest.result, rest.invocations, retryDelay * 2 ^ attempt :: rest.sleeps⟩

/-- AIProvider._retry_with_backoff, base.py lines 103 to 133: the loop
runs for attempt in range(max_retries), which is empty when
max_retries is not positive. -/
def retryWithBackoff {E A : Type} (providerName : String) (maxRetries : Int)
    (retryDelay : ℚ) (func : Nat → Except E A) : RetryOutcome E A :=
  retryAux providerName maxRetries retryDelay func maxRetries.toNat 0 none

theorem retryAux_zero {E A : Type} (p : String) (m : Int) (d : ℚ)
    (f : Nat → Except E A) (a : Nat) (le : Option E) :
    retryAux p m d f 0 a le = ⟨Except.error ⟨p, m, le⟩, a, []⟩ := rfl

theorem retryAux_succ {E A : Type} (p : String) (m : Int) (d : ℚ)
    (f : Nat → Except E A) (fuel a : Nat) (le : Option E) :
    retryAux p m d f (fuel + 1) a le =
      match f a with
      | Except.ok v => ⟨Except.ok v, a + 1, []⟩
      | Except.error e =>
          if fuel = 0 then ⟨Except.error ⟨p, m, some e⟩, a + 1, []⟩
          else
            ⟨(retryAux p m d f fuel (a + 1) (some e)).result,
             (retryAux p m d f fuel (a + 1) (some e)).invocations,
             d * 2 ^ a :: (retryAux p m d f fuel (a + 1) (some e)).sleeps⟩ := rfl

/-- The retry loop only evaluates the wrapped call on the attempt
indices it reaches, so it is invariant under changing the call outside
that window. -/
theorem retryAux_congr {E A : Type} (p : String) (m : Int) (d : ℚ)
    (f g : Nat → Except E A) :
    ∀ (fuel a : Nat) (le : Option E),
      (∀ i, a ≤ i → i < a + fuel → f i = g i) →
      retryAux p m d f fuel a le = retryAux p m d g fuel a le := by
  intro fuel
  induction fuel with
  | zero => intro a le h; rfl
  | succ n ih =>
    intro a le h
    rw [retryAux_succ, retryAux_succ, h a (le_refl a) (by omega)]
    cases g a with
    | ok v => rfl
    | error e =>
      by_cases hn : n = 0
      · simp only [hn, reduceIte]
      · simp only [hn, reduceIte, if_neg hn,
          ih (a + 1) (some e) (fun i h1 h2 => h i (by omega) (by omega))]

/-- Python str.lower on the ASCII strings used by this code base,
modelled as a character map so that it evaluates by reduction. -/
def lowerString (s : String) : String :=
  String.mk (s.data.map Char.toLower)

/-- Python str.upper on the ASCII strings used by this code base. -/
def upperString (s : String) : String :=
  String.mk (s.data.map Char.toUpper)

/-- Python str.join with the separator comma space, as used to list the
valid provider names in factory.py line 148. -/
def joinComma : List String → String
  | [] => ""
  | [x] => x
  | x :: rest => x ++ ", " ++ joinComma rest

/-- Python list membership test needle in haystack restricted to the
head position: the needle is an initial segment of the haystack. -/
def leadsList : List Char → List Char → Bool
  | [], _ => true
  | _ :: _, [] => false
  | a :: as, b :: bs => a = b && leadsList as bs

/-- Python substring test needle in haystack on character lists. -/
def occursIn : List Char → List Char → Bool
  | needle, [] => needle.isEmpty
  | needle, c :: rest => leadsList needle (c :: rest) || occursIn needle rest

/-- Model family names treated as vision capable by the Ollama variant,
ollama_provider.py line 37. -/
def ollamaVisionFamilies : List String := ["llava", "bakllava", "moondream"]

/-- OllamaProvider.supports_vision, ollama_provider.py lines 34 to 38:
true when any known vision family name occurs as a substring of the
lowercased configured vision model. -/
def ollamaSupportsVision (cfg : ProviderConfig) : Bool :=
  ollamaVisionFamilies.any
    (fun m => occursIn m.toList (lowerString cfg.visionModel).toList)

/-- Local variable image_base64 of OpenAIProvider.vision,
openai_provider.py line 74. -/
def openAIVisionImageBase64 (imageData : List Nat) : String :=
  String.mk (b64encode imageData)

/-- Local variable image_base64 of AnthropicProvider.vision,
anthropic_provider.py line 73. -/
def anthropicVisionImageBase64 (imageData : List Nat) : String :=
  String.mk (b64encode imageData)

/-- Local variable image_base64 of QwenProvider.vision,
qwen_provider.py line 78. -/
def qwenVisionImageBase64 (imageData : List Nat) : String :=
  String.mk (b64encode imageData)

/-- Local variable image_base64 of OllamaProvider.vision,
ollama_provider.py line 117. -/
def ollamaVisionImageBase64 (imageData : List Nat) : String :=
  String.mk (b64encode imageData)

/-- Request issued by OpenAIProvider.vision, openai_provider.py lines
76 to 104: the chat.completions.create call with the inline data URI. -/
structure OpenAIVisionRequest where
  model : String
  imageUrl : String
  imageDetail : String
  promptText : String
  maxTokens : Int
  temperature : ℚ
deriving DecidableEq

def openAIVisionRequest (cfg : ProviderConfig) (imageData : List Nat)
    (prompt imageFormat : String) : OpenAIVisionRequest :=
  { model := if cfg.visionModel = "" then "gpt-4o" else cfg.visionModel
    imageUrl := "data:image/" ++ imageFormat ++ ";base64," ++
      openAIVisionImageBase64 imageData
    imageDetail := "high"
    promptText := prompt
    maxTokens := cfg.maxTokens
    temperature := 0.1 }

/-- Media type mapping of AnthropicProvider.vision, anthropic_provider.py
lines 75 to 83: dict get with default image/png. -/
def anthropicMediaType (imageFormat : String) : String :=
  match lowerString imageFormat with
  | "png" => "image/png"
  | "jpg" => "image/jpeg"
  | "jpeg" => "image/jpeg"
  | "gif" => "image/gif"
  | "webp" => "image/webp"
  | _ => "image/png"

/-- Request issued by AnthropicProvider.vision, anthropic_provider.py
lines 85 to 114: the messages.create call with a base64 image source. -/
structure AnthropicVisionRequest where
  model : String
  sourceType : String
  mediaType : String
  dataBase64 : String
  promptText : String
  maxTokens : Int
  temperature : ℚ
deriving DecidableEq

def anthropicVisionRequest (cfg : ProviderConfig) (imageData : List Nat)
    (prompt imageFormat : String) : AnthropicVisionRequest :=
  { model := if cfg.visionModel = "" then "claude-sonnet-4-20250514"
      else cfg.visionModel
    sourceType := "base64"
    mediaType := anthropicMediaType imageFormat
    dataBase64 := anthropicVisionImageBase64 imageData
    promptText := prompt
    maxTokens := cfg.maxTokens
    temperature := 0.1 }

/-- Request issued by QwenProvider.vision, qwen_provider.py lines 80 to
107: OpenAI compatible chat.completions.create call with a data URI. -/
structure QwenVisionRequest where
  model : String
  imageUrl : String
  promptText : String
  maxTokens : Int
  temperature : ℚ
deriving DecidableEq

def qwenVisionRequest (cfg : ProviderConfig) (imageData : List Nat)
    (prompt imageFormat : String) : QwenVisionRequest :=
  { model := if cfg.visionModel = "" then "qwen-vl-plus" else cfg.visionModel
    imageUrl := "data:image/" ++ imageFormat ++ ";base64," ++
      qwenVisionImageBase64 imageData
    promptText := prompt
    maxTokens := cfg.maxTokens
    temperature := 0.1 }

/-- Request issued by GeminiProvider.vision, gemini_provider.py lines
83 to 101: an image part with a mime type and raw bytes plus a
generation config. -/
structure GeminiVisionRequest where
  mimeType : String
  imageBytes : List Nat
  promptText : String
  temperature : ℚ
  maxOutputTokens : Int
deriving DecidableEq

def geminiVisionRequest (cfg : ProviderConfig) (imageData : List Nat)
    (prompt imageFormat : String) : GeminiVisionRequest :=
  { mimeType := "image/" ++ imageFormat
    imageBytes := imageData
    promptText := prompt
    temperature := 0.1
    maxOutputTokens := cfg.maxTokens }

/-- Request issued by OllamaProvider.vision, ollama_provider.py lines
119 to 128: the generate endpoint payload; the image format argument
is not used at all. -/
structure OllamaVisionRequest where
  model : String
  promptText : String
  images : List String
  streamFlag : Bool
  temperature : ℚ
  numPredict : Int
deriving DecidableEq

def ollamaVisionRequest (cfg : ProviderConfig) (imageData : List Nat)
    (prompt imageFormat : String) : OllamaVisionRequest :=
  { model := if cfg.visionModel = "" then "llava" else cfg.visionModel
    promptText := prompt
    images := [ollamaVisionImageBase64 imageData]
    streamFlag := true
    temperature := 0.1
    numPredict := cfg.maxTokens }

/-- Registered provider names, in the insertion order of the PROVIDERS
registry in factory.py lines 21 to 27. -/
def providerNames : List String :=
  ["qwen", "gemini", "openai", "anthropic", "ollama"]

/-- Default vision model per provider, factory.py lines 39 to 60. -/
def defaultVisionModel : String → String
  | "qwen" => "qwen-vl-plus"
  | "gemini" => "gemini-2.0-flash"
  | "openai" => "gpt-4o"
  | "anthropic" => "claude-sonnet-4-20250514"
  | "ollama" => "llava"
  | _ => ""

/-- Default language model per provider, factory.py lines 39 to 60. -/
def defaultLanguageModel : String → String
  | "qwen" => "qwen-max"
  | "gemini" => "gemini-2.0-flash"
  | "openai" => "gpt-4o"
  | "anthropic" => "claude-sonnet-4-20250514"
  | "ollama" => "llama3"
  | _ => ""

/-- Name of the environment variable holding the API key per provider,
factory.py lines 152 to 158; none for ollama. -/
def apiKeyEnvVarName : String → Option String
  | "qwen" => some "DASHSCOPE_API_KEY"
  | "gemini" => some "GEMINI_API_KEY"
  | "openai" => some "OPENAI_API_KEY"
  | "anthropic" => some "ANTHROPIC_API_KEY"
  | _ => none

/-- Error raised by get_provider for an unknown provider name,
factory.py lines 145 to 149. The source raises ValueError; the spec
names this error ConfigurationError. -/
inductive FactoryError where
  | configurationError (message : String)
deriving DecidableEq

/-- A constructed provider: one of the five variants holding its
configuration, as returned by the create functions in factory.py. -/
inductive Provider where
  | qwen (config : ProviderConfig)
  | gemini (config : ProviderConfig)
  | openai (config : ProviderConfig)
  | anthropic (config : ProviderConfig)
  | ollama (config : ProviderConfig)
deriving DecidableEq

/-- Configuration sources visible to get_provider: the process
environment os.environ as a string lookup, the parsed local .env file
values as a second string lookup, and the numeric shared settings.
The fields maxTokensSetting, temperatureSetting, maxRetriesSetting and
retryDelaySetting model the already parsed values of
int(os.environ.get("MAX_TOKENS", env_vars.get("MAX_TOKENS", 4096)))
and the analogous lookups in factory.py lines 178 to 181; none means
the variable is absent from both sources so the built in default is
used. -/
structure Env where
  vars : String → Option String
  fileVars : String → Option String
  maxTokensSetting : Option Int
  temperatureSetting : Option ℚ
  maxRetriesSetting : Option Int
  retryDelaySetting : Option ℚ

/-- Environment with no variables set. -/
def envEmpty : Env :=
  ⟨fun _ => none, fun _ => none, none, none, none, none⟩

/-- create_qwen_provider, qwen_provider.py lines 110 to 138. -/
def createQwenProvider (apiKey : Option String)
    (visionModel languageModel : String) (maxTokens : Int)
    (temperature : ℚ) (maxRetries : Int) (retryDelay : ℚ)
    (environ : String → Option String) : Provider :=
  let k := apiKey.getD ""
  let resolvedKey := if k = "" then (environ "DASHSCOPE_API_KEY").getD "" else k
  Provider.qwen (mkProviderConfig resolvedKey
    "https://dashscope.aliyuncs.com/compatible-mode/v1"
    visionModel languageModel maxTokens temperature 0.9 maxRetries retryDelay [])

/-- create_gemini_provider, gemini_provider.py lines 104 to 131. -/
def createGeminiProvider (apiKey : Option String)
    (visionModel languageModel : String) (maxTokens : Int)
    (temperature : ℚ) (maxRetries : Int) (retryDelay : ℚ)
    (environ : String → Option String) : Provider :=
  let k := apiKey.getD ""
  let resolvedKey := if k = "" then (environ "GEMINI_API_KEY").getD "" else k
  Provider.gemini (mkProviderConfig resolvedKey ""
    visionModel languageModel maxTokens temperature 0.9 maxRetries retryDelay [])

/-- create_openai_provider, openai_provider.py lines 107 to 134. -/
def createOpenAIProvider (apiKey : Option String)
    (visionModel languageModel : String) (maxTokens : Int)
    (temperature : ℚ) (maxRetries : Int) (retryDelay : ℚ)
    (environ : String → Option String) : Provider :=
  let k := apiKey.getD ""
  let resolvedKey := if k = "" then (environ "OPENAI_API_KEY").getD "" else k
  Provider.openai (mkProviderConfig resolvedKey ""
    visionModel languageModel maxTokens temperature 0.9 maxRetries retryDelay [])

/-- create_anthropic_provider, anthropic_provider.py lines 117 to 144. -/
def createAnthropicProvider (apiKey : Option String)
    (visionModel languageModel : String) (maxTokens : Int)
    (temperature : ℚ) (maxRetries : Int) (retryDelay : ℚ)
    (environ : String → Option String) : Provider :=
  let k := apiKey.getD ""
  let resolvedKey := if k = "" then (environ "ANTHROPIC_API_KEY").getD "" else k
  Provider.anthropic (mkProviderConfig resolvedKey ""
    visionModel languageModel maxTokens temperature 0.9 maxRetries retryDelay [])

/-- create_ollama_provider, ollama_provider.py lines 189 to 217. -/
def createOllamaProvider (baseUrl : String)
    (visionModel languageModel : String) (maxTokens : Int)
    (temperature : ℚ) (maxRetries : Int) (retryDelay : ℚ)
    (environ : String → Option String) : Provider :=
  let apiBase := if baseUrl = "" then
      (environ "OLLAMA_BASE_URL").getD "http://localhost:11434" else baseUrl
  Provider.ollama (mkProviderConfig "" apiBase
    visionModel languageModel maxTokens temperature 0.9 maxRetries retryDelay [])

/-- get_provider, factory.py lines 108 to 203: resolves the provider
name (explicit argument, else AI_PROVIDER from the process
environment, else from the .env file, else the default qwen), lowers
it, rejects unregistered names with an error listing the valid names,
resolves the API key and the model names through the same layering,
and dispatches to the create function of the chosen variant. -/
def getProvider (providerName apiKey visionModel languageModel : Option String)
    (env : Env) : Except FactoryError Provider :=
  let name0 := match providerName with
    | some n => n
    | none => (env.vars "AI_PROVIDER").getD
        ((env.fileVars "AI_PROVIDER").getD "qwen")
  let name := lowerString name0
  if name ∈ providerNames then
    let resolvedApiKey : Option String := match apiKey with
      | some k => some k
      | none => match apiKeyEnvVarName name with
          | some ev => some ((env.vars ev).getD ((env.fileVars ev).getD ""))
          | none => none
    let upperName := upperString name
    let vm := visionModel.getD
      ((env.vars (upperName ++ "_VISION_MODEL")).getD
        ((env.fileVars (upperName ++ "_VISION_MODEL")).getD
          (defaultVisionModel name)))
    let lm := languageModel.getD
      ((env.vars (upperName ++ "_LANGUAGE_MODEL")).getD
        ((env.fileVars (upperName ++ "_LANGUAGE_MODEL")).getD
          (defaultLanguageModel name)))
    let maxTokens := env.maxTokensSetting.getD 4096
    let temperature := env.temperatureSetting.getD 0.7
    let maxRetries := env.maxRetriesSetting.getD 3
    let retryDelay := env.retryDelaySetting.getD 1
    if name = "qwen" then
      Except.ok (createQwenProvider resolvedApiKey vm lm maxTokens temperature
        maxRetries retryDelay env.vars)
    else if name = "gemini" then
      Except.ok (createGeminiProvider resolvedApiKey vm lm maxTokens temperature
        maxRetries retryDelay env.vars)
    else if name = "openai" then
      Except.ok (createOpenAIProvider resolvedApiKey vm lm maxTokens temperature
        maxRetries retryDelay env.vars)
    else if name = "anthropic" then
      Except.ok (createAnthropicProvider resolvedApiKey vm lm maxTokens
        temperature maxRetries retryDelay env.vars)
    else
      let baseUrl0 := ((env.vars "OLLAMA_BASE_URL").or
        (env.fileVars "OLLAMA_BASE_URL")).getD ""
      let baseUrl := if baseUrl0 = "" then "http://localhost:11434" else baseUrl0
      Except.ok (createOllamaProvider baseUrl vm lm maxTokens temperature
        maxRetries retryDelay env.vars)
  else
    Except.error (FactoryError.configurationError
      ("Unknown provider: " ++ name ++ ". Available providers: " ++
        joinComma providerNames))

/-- Default ProviderConfig, all dataclass defaults of base.py lines 18
to 27. -/
def cfgDefault : ProviderConfig :=
  mkProviderConfig "" "" "" "" 4096 0.7 0.9 3 1 []

/-- C3: ProviderConfig construction never fails for any field values
(mkProviderConfig is a total function); temperature outside the closed
interval from 0 to 2 is replaced by 0.7, top_p outside the closed
interval from 0 to 1 is replaced by 0.9, max_tokens below 1 is
replaced by 4096, in-range values are kept unchanged, and all other
fields pass through untouched. -/
theorem providerConfig_construction_normalizes
    (k b vm lm : String) (mt : Int) (t p : ℚ) (mr : Int) (rd : ℚ)
    (ex : List (String × String)) :
    (mkProviderConfig k b vm lm mt t p mr rd ex).maxTokens =
      (if mt < 1 then 4096 else mt) ∧
    (mkProviderConfig k b vm lm mt t p mr rd ex).temperature =
      (if 0 ≤ t ∧ t ≤ 2 then t else 0.7) ∧
    (mkProviderConfig k b vm lm mt t p mr rd ex).topP =
      (if 0 ≤ p ∧ p ≤ 1 then p else 0.9) ∧
    (mkProviderConfig k b vm lm mt t p mr rd ex).apiKey = k ∧
    (mkProviderConfig k b vm lm mt t p mr rd ex).apiBase = b ∧
    (mkProviderConfig k b vm lm mt t p mr rd ex).visionModel = vm ∧
    (mkProviderConfig k b vm lm mt t p mr rd ex).languageModel = lm ∧
    (mkProviderConfig k b vm lm mt t p mr rd ex).maxRetries = mr ∧
    (mkProviderConfig k b vm lm mt t p mr rd ex).retryDelay = rd := by
  simp only [mkProviderConfig, ProviderConfig.postInit, ite_not]
  tauto

/-- C1: with max_retries equal to 3 and a wrapped call that raises on
every attempt, the retry policy invokes the call exactly 3 times,
sleeps retry_delay then 2 times retry_delay between attempts with no
sleep after the final failure, and raises one aggregating error naming
the provider and wrapping the last underlying exception. -/
theorem retry_exhausts_after_three_failures {E A : Type}
    (providerName : String) (d : ℚ) (func : Nat → Except E A) (e : Nat → E)
    (hf : ∀ i, i < 3 → func i = Except.error (e i)) :
    (retryWithBackoff providerName 3 d func).result =
      Except.error ⟨providerName, 3, some (e 2)⟩ ∧
    (retryWithBackoff providerName 3 d func).invocations = 3 ∧
    (retryWithBackoff providerName 3 d func).sleeps = [d, 2 * d] := by
  have hc : retryWithBackoff providerName 3 d func =
      retryWithBackoff providerName 3 d (fun i => Except.error (e i)) := by
    unfold retryWithBackoff
    exact retryAux_congr providerName 3 d func (fun i => Except.error (e i))
      ((3 : Int).toNat) 0 none (fun i _ h2 => hf i (by omega))
  rw [hc]
  refine ⟨rfl, rfl, ?_⟩
  show [d * 2 ^ 0, d * 2 ^ 1] = [d, 2 * d]
  norm_num [mul_comm]

theorem retry_exhausts_after_three_failures_witness :
    (∀ i, i < 3 →
      (fun j => (Except.error (j + 10) : Except Nat String)) i =
        Except.error (i + 10)) ∧
    ((retryWithBackoff "openai" 3 1
        (fun j => (Except.error (j + 10) : Except Nat String))).result =
      Except.error ⟨"openai", 3, some 12⟩ ∧
     (retryWithBackoff "openai" 3 1
        (fun j => (Except.error (j + 10) : Except Nat String))).invocations = 3 ∧
     (retryWithBackoff "openai" 3 1
        (fun j => (Except.error (j + 10) : Except Nat String))).sleeps =
       [1, 2 * 1]) :=
  ⟨fun _ _ => rfl,
   retry_exhausts_after_three_failures "openai" 1
     (fun j => (Except.error (j + 10) : Except Nat String))
     (fun j => j + 10) (fun _ _ => rfl)⟩

/-- C2: with max_retries equal to 3 and a wrapped call that raises on
its first two invocations and returns v on the third, the retry policy
returns v after exactly 3 invocations and raises no error. -/
theorem retry_returns_after_two_failures {E A : Type} (providerName : String)
    (d : ℚ) (func : Nat → Except E A) (e0 e1 : E) (v : A)
    (h0 : func 0 = Except.error e0) (h1 : func 1 = Except.error e1)
    (h2 : func 2 = Except.ok v) :
    (retryWithBackoff providerName 3 d func).result = Except.ok v ∧
    (retryWithBackoff providerName 3 d func).invocations = 3 := by
  have hc : retryWithBackoff providerName 3 d func =
      retryWithBackoff providerName 3 d
        (fun i => if i = 0 then Except.error e0
          else if i = 1 then Except.error e1 else Except.ok v) := by
    unfold retryWithBackoff
    refine retryAux_congr providerName 3 d func _
      ((3 : Int).toNat) 0 none (fun i _ hi2 => ?_)
    have hi3 : i < 3 := by omega
    interval_cases i <;> simp [h0, h1, h2]
  rw [hc]
  exact ⟨rfl, rfl⟩

theorem retry_returns_after_two_failures_witness :
    ((fun i => if i = 0 then Except.error "a"
        else if i = 1 then Except.error "b"
        else (Except.ok 7 : Except String Nat)) 0 = Except.error "a") ∧
    ((fun i => if i = 0 then Except.error "a"
        else if i = 1 then Except.error "b"
        else (Except.ok 7 : Except String Nat)) 1 = Except.error "b") ∧
    ((fun i => if i = 0 then Except.error "a"
        else if i = 1 then Except.error "b"
        else (Except.ok 7 : Except String Nat)) 2 = Except.ok 7) ∧
    ((retryWithBackoff "qwen" 3 1
        (fun i => if i = 0 then Except.error "a"
          else if i = 1 then Except.error "b"
          else (Except.ok 7 : Except String Nat))).result = Except.ok 7 ∧
     (retryWithBackoff "qwen" 3 1
        (fun i => if i = 0 then Except.error "a"
          else if i = 1 then Except.error "b"
          else (Except.ok 7 : Except String Nat))).invocations = 3) :=
  ⟨rfl, rfl, rfl,
   retry_returns_after_two_failures "qwen" 1 _ "a" "b" 7 rfl rfl rfl⟩

/-- C10: constructing a ProviderConfig leaves max_retries unchanged even
when it is zero or negative, and for such a value the retry loop body
never runs: the wrapped function is invoked zero times, no sleep
happens, and the aggregating error is raised immediately with the
placeholder none as the reported underlying exception, so every chat
or vision call routed through the retry wrapper fails
unconditionally. -/
theorem retry_nonpositive_never_invokes {E A : Type}
    (providerName k b vm lm : String) (mt : Int) (t tp : ℚ) (m : Int)
    (rd : ℚ) (ex : List (String × String)) (func : Nat → Except E A)
    (hm : m ≤ 0) :
    (mkProviderConfig k b vm lm mt t tp m rd ex).maxRetries = m ∧
    (retryWithBackoff providerName m rd func).invocations = 0 ∧
    (retryWithBackoff providerName m rd func).result =
      Except.error ⟨providerName, m, none⟩ ∧
    (retryWithBackoff providerName m rd func).sleeps = [] := by
  have h1 : m.toNat = 0 := Int.toNat_of_nonpos hm
  refine ⟨rfl, ?_, ?_, ?_⟩
  all_goals
    unfold retryWithBackoff
    rw [h1, retryAux_zero]

theorem retry_nonpositive_never_invokes_witness :
    ((-2 : Int) ≤ 0) ∧
    ((mkProviderConfig "" "" "" "" 4096 0.7 0.9 (-2) 1 []).maxRetries = -2 ∧
     (retryWithBackoff "gemini" (-2) 1
        (fun _ => (Except.error 0 : Except Nat Nat))).invocations = 0 ∧
     (retryWithBackoff "gemini" (-2) 1
        (fun _ => (Except.error 0 : Except Nat Nat))).result =
       Except.error ⟨"gemini", -2, none⟩ ∧
     (retryWithBackoff "gemini" (-2) 1
        (fun _ => (Except.error 0 : Except Nat Nat))).sleeps = []) :=
  ⟨by norm_num,
   retry_nonpositive_never_invokes "gemini" "" "" "" "" 4096 0.7 0.9 (-2) 1 []
     (fun _ => (Except.error 0 : Except Nat Nat)) (by norm_num)⟩

/-- C4: for all five provider variants and every configuration, the
vision request is issued with sampling temperature fixed at 0.1,
regardless of the configured temperature. -/
theorem vision_temperature_is_fixed (cfg : ProviderConfig)
    (img : List Nat) (p f : String) :
    (qwenVisionRequest cfg img p f).temperature = 0.1 ∧
    (geminiVisionRequest cfg img p f).temperature = 0.1 ∧
    (openAIVisionRequest cfg img p f).temperature = 0.1 ∧
    (anthropicVisionRequest cfg img p f).temperature = 0.1 ∧
    (ollamaVisionRequest cfg img p f).temperature = 0.1 :=
  ⟨rfl, rfl, rfl, rfl, rfl⟩

/-- C5 counterexample: the provider name QWEN is not one of the five
registered names, yet get_provider lowercases the name first, so
resolving QWEN succeeds and constructs a provider instead of raising
the claimed error. -/
theorem unknown_provider_claim_counterexample :
    "QWEN" ∉ providerNames ∧
    getProvider (some "QWEN") none none none envEmpty =
      Except.ok (Provider.qwen (mkProviderConfig ""
        "https://dashscope.aliyuncs.com/compatible-mode/v1" "qwen-vl-plus"
        "qwen-max" 4096 0.7 0.9 3 1 [])) := by
  exact ⟨by decide, rfl⟩

/-- C5 amended: resolving a provider name whose lowercasing is not one
of the five registered names yields the configuration error whose
message lists all five valid provider names, and no provider is
constructed (the result is an error, not a provider). -/
theorem unknown_provider_rejected (name : String)
    (apiKey visionModel languageModel : Option String) (env : Env)
    (h : lowerString name ∉ providerNames) :
    getProvider (some name) apiKey visionModel languageModel env =
      Except.error (FactoryError.configurationError
        ("Unknown provider: " ++ lowerString name ++ ". Available providers: " ++
          "qwen, gemini, openai, anthropic, ollama")) := by
  simp only [getProvider]
  rw [if_neg h]
  rfl

theorem unknown_provider_rejected_witness :
    lowerString "unknownvendor" ∉ providerNames ∧
    getProvider (some "unknownvendor") none none none envEmpty =
      Except.error (FactoryError.configurationError
        ("Unknown provider: " ++ lowerString "unknownvendor" ++
          ". Available providers: " ++
          "qwen, gemini, openai, anthropic, ollama")) :=
  ⟨by decide,
   unknown_provider_rejected "unknownvendor" none none none envEmpty
     (by decide)⟩

/-- Environment of the C6 scenario: the process environment holds
AI_PROVIDER set to gemini and GEMINI_API_KEY set to abc, nothing
else. -/
def envC6 : Env :=
  ⟨fun k => if k = "AI_PROVIDER" then some "gemini"
    else if k = "GEMINI_API_KEY" then some "abc" else none,
   fun _ => none, none, none, none, none⟩

/-- C6: with no explicit arguments and a process environment holding
AI_PROVIDER set to gemini and GEMINI_API_KEY set to abc, the factory
returns the Gemini variant whose configuration carries the api key abc
(and otherwise the built in Gemini defaults), per the layered
resolution order of get_provider. -/
theorem gemini_resolved_from_environment :
    getProvider none none none none envC6 =
      Except.ok (Provider.gemini (mkProviderConfig "abc" ""
        "gemini-2.0-flash" "gemini-2.0-flash" 4096 0.7 0.9 3 1 [])) ∧
    (mkProviderConfig "abc" "" "gemini-2.0-flash" "gemini-2.0-flash"
      4096 0.7 0.9 3 1 []).apiKey = "abc" :=
  ⟨rfl, rfl⟩

/-- C7: OllamaProvider.supports_vision holds exactly when one of the
known vision capable family names occurs in the lowercased configured
vision model; in particular it holds for the model llava written in
any letter case and fails for llama3. -/
theorem ollama_supports_vision_characterized (cfg : ProviderConfig)
    (s : String) (hs : lowerString s = "llava") :
    (ollamaSupportsVision cfg = true ↔
      ∃ m ∈ ollamaVisionFamilies,
        occursIn m.toList (lowerString cfg.visionModel).toList = true) ∧
    ollamaSupportsVision { cfg with visionModel := s } = true ∧
    ollamaSupportsVision { cfg with visionModel := "llama3" } = false := by
  refine ⟨?_, ?_, ?_⟩
  · simp [ollamaSupportsVision, List.any_eq_true]
  · show ollamaVisionFamilies.any
      (fun m => occursIn m.toList (lowerString s).toList) = true
    rw [hs]
    decide
  · show ollamaVisionFamilies.any
      (fun m => occursIn m.toList (lowerString "llama3").toList) = false
    decide

theorem ollama_supports_vision_characterized_witness :
    lowerString "LLaVA" = "llava" ∧
    ((ollamaSupportsVision cfgDefault = true ↔
        ∃ m ∈ ollamaVisionFamilies,
          occursIn m.toList (lowerString cfgDefault.visionModel).toList = true) ∧
      ollamaSupportsVision { cfgDefault with visionModel := "LLaVA" } = true ∧
      ollamaSupportsVision { cfgDefault with visionModel := "llama3" } = false) :=
  ⟨by decide,
   ollama_supports_vision_characterized cfgDefault "LLaVA" (by decide)⟩

/-- C8 counterexample: for the OpenAI variant with the unsupported
image format bmp, the request embeds the format verbatim in the data
URI instead of substituting a default MIME type, so the claim that
every variant substitutes a default MIME type for an unsupported
format is false. -/
theorem vision_default_mime_claim_counterexample :
    "bmp" ∉ ["png", "jpg", "jpeg", "gif", "webp"] ∧
    (openAIVisionRequest cfgDefault [] "read this page" "bmp").imageUrl =
      "data:image/bmp;base64," ∧
    (openAIVisionRequest cfgDefault [] "read this page" "bmp").imageUrl ≠
      "data:image/png;base64," := by
  exact ⟨by decide, rfl, by decide⟩

/-- C8 amended: calling vision with an image format outside png, jpg,
jpeg, gif, webp never fails on account of the format (each request
builder is a total function): the Anthropic variant substitutes the
default media type image/png; the OpenAI, Qwen and Gemini variants
embed the given format verbatim in the MIME string; the Ollama variant
ignores the format entirely. -/
theorem vision_unsupported_format_handling (cfg : ProviderConfig)
    (img : List Nat) (p f : String)
    (h : lowerString f ∉ ["png", "jpg", "jpeg", "gif", "webp"]) :
    anthropicMediaType f = "image/png" ∧
    (anthropicVisionRequest cfg img p f).mediaType = "image/png" ∧
    (openAIVisionRequest cfg img p f).imageUrl =
      "data:image/" ++ f ++ ";base64," ++ openAIVisionImageBase64 img ∧
    (qwenVisionRequest cfg img p f).imageUrl =
      "data:image/" ++ f ++ ";base64," ++ qwenVisionImageBase64 img ∧
    (geminiVisionRequest cfg img p f).mimeType = "image/" ++ f ∧
    ollamaVisionRequest cfg img p f = ollamaVisionRequest cfg img p "png" := by
  have hm : anthropicMediaType f = "image/png" := by
    unfold anthropicMediaType
    split <;> simp_all
  exact ⟨hm, hm, rfl, rfl, rfl, rfl⟩

theorem vision_unsupported_format_handling_witness :
    lowerString "bmp" ∉ ["png", "jpg", "jpeg", "gif", "webp"] ∧
    (anthropicMediaType "bmp" = "image/png" ∧
     (anthropicVisionRequest cfgDefault [] "p" "bmp").mediaType = "image/png" ∧
     (openAIVisionRequest cfgDefault [] "p" "bmp").imageUrl =
       "data:image/" ++ "bmp" ++ ";base64," ++ openAIVisionImageBase64 [] ∧
     (qwenVisionRequest cfgDefault [] "p" "bmp").imageUrl =
       "data:image/" ++ "bmp" ++ ";base64," ++ qwenVisionImageBase64 [] ∧
     (geminiVisionRequest cfgDefault [] "p" "bmp").mimeType =
       "image/" ++ "bmp" ∧
     ollamaVisionRequest cfgDefault [] "p" "bmp" =
       ollamaVisionRequest cfgDefault [] "p" "png") :=
  ⟨by decide,
   vision_unsupported_format_handling cfgDefault [] "p" "bmp" (by decide)⟩

/-- C9: for every byte sequence, decoding the base64 string that the
OpenAI, Anthropic and Qwen variants embed into their vision request
payloads reproduces the original bytes exactly. -/
theorem vision_payload_base64_roundtrip (img : List Nat)
    (h : ∀ x ∈ img, x < 256) :
    b64decode (openAIVisionImageBase64 img).toList = img ∧
    b64decode (anthropicVisionImageBase64 img).toList = img ∧
    b64decode (qwenVisionImageBase64 img).toList = img := by
  have hr := b64_roundtrip img h
  exact ⟨hr, hr, hr⟩

theorem vision_payload_base64_roundtrip_witness :
    (∀ x ∈ [77, 97, 110], x < 256) ∧
    (b64decode (openAIVisionImageBase64 [77, 97, 110]).toList =
        [77, 97, 110] ∧
      b64decode (anthropicVisionImageBase64 [77, 97, 110]).toList =
        [77, 97, 110] ∧
      b64decode (qwenVisionImageBase64 [77, 97, 110]).toList =
        [77, 97, 110]) :=
  ⟨by decide, vision_payload_base64_roundtrip [77, 97, 110] (by decide)⟩
